import Mathlib

/-!
Shallow embedding of `src/amethyst_assets/src/asset.rs`, the asset
ingestion abstraction layer of the amethyst repository: the `Format`
trait with its layered default `import` entry point, the
`SerializableFormat` refinement, the dynamic-dispatch adapters for boxed
trait objects, the blanket `ProcessableAsset` passthrough, and the
`FormatValue` envelope.

Bytes (`Vec<u8>`) are modelled as `List Nat` (their numeric range plays
no role here); a Rust panic (`unimplemented!`) is modelled explicitly by
the `PResult` outcome type, so that halting loudly is distinguishable
from returning a value.
-/

namespace Amethyst

/-- Modelled from the spec: the context kinds this core attaches when
wrapping collaborator failures; `Source` is the Source error category
(`crate::error::Error::Source`, spec section 7), attached when byte
resolution fails. -/
inductive AErrorKind : Type where
  | Source

/-- Modelled from the spec: the error type of the `amethyst_error` crate
(an external boundary of this core, spec section 6) — an error value
supporting contextual wrapping, i.e. attaching a higher-level cause
description while preserving the original error. `withCtx k e` models
the result of `e.with_context(|_| k)`: the context `k` chained on top of
the preserved cause `e`. -/
inductive AError : Type where
  | msg (s : String)
  | withCtx (k : AErrorKind) (cause : AError)

/-- Modelled from the spec: the byte-source boundary contract (spec
section 6): `load(name: string) -> Result<bytes, Error>`, resolving a
logical asset name to raw bytes. -/
structure Source : Type where
  load : String → Except AError (List Nat)

/-- Outcome of running Rust code that may panic: either it halts loudly
with a panic message, or it returns a value. A `?`-propagated `Err` is a
returned value (`ret (Except.error e)`), not a panic. -/
inductive PResult (α : Type) : Type where
  | panicked (message : String)
  | ret (a : α)

/-- The `Ok` return value of `Format::import` (asset.rs lines 127-130):
a trivial envelope with the single public field `data`. -/
structure FormatValue (D : Type) : Type where
  data : D

/-- The associated function `FormatValue::data` (asset.rs lines 132-136):
creates a `FormatValue` from only the data. Named `fromData` here because
the field projection already owns the name `data`. -/
def FormatValue.fromData {D : Type} (d : D) : FormatValue D :=
  { data := d }

/-- The `Format` trait (asset.rs lines 51-79) as a record of its method
table: the required `name`, and the two overridable entry points
`import_simple` and `import` (the latter field is named `doImport` here
because of a reserved word). A concrete implementer that leaves a method
at its default stores the corresponding default body in that field, the
way a Rust vtable does. -/
structure Format (D : Type) : Type where
  name : String
  import_simple : List Nat → PResult (Except AError D)
  doImport : String → Source → PResult (Except AError (FormatValue D))

/-- Panic message produced by the default `import_simple` body:
`unimplemented!(m)` panics with the message `m` prefixed by
"not implemented: ". -/
def importSimpleDefaultMsg : String :=
  "not implemented: You must implement either `import_simple` or `import`."

/-- Default body of `Format::import_simple` (asset.rs lines 63-65): an
unconditional `unimplemented!` panic, independent of the bytes. -/
def Format.import_simple_default (D : Type) : List Nat → PResult (Except AError D) :=
  fun _ => PResult.panicked importSimpleDefaultMsg

/-- Default body of `Format::import` (asset.rs lines 71-78), abstracted
over the `import_simple` method it delegates to: resolve `name` through
the byte-source; on resolution failure, `?`-return the underlying error
wrapped with the Source context by `with_context`; otherwise hand the
loaded bytes to `import_simple`, `?`-propagating its error, propagating
its panic, and wrapping its data in a `FormatValue` via
`FormatValue::data`. -/
def importDefaultWith {D : Type} (imp : List Nat → PResult (Except AError D))
    (name : String) (source : Source) : PResult (Except AError (FormatValue D)) :=
  match source.load name with
  | Except.error e => PResult.ret (Except.error (AError.withCtx AErrorKind.Source e))
  | Except.ok b =>
    match imp b with
    | PResult.panicked m => PResult.panicked m
    | PResult.ret (Except.error e) => PResult.ret (Except.error e)
    | PResult.ret (Except.ok d) => PResult.ret (Except.ok (FormatValue.fromData d))

/-- The default `Format::import` of a given format value: the default
body of asset.rs lines 71-78 delegating to this format's
`import_simple`. -/
def Format.defaultImport {D : Type} (f : Format D) :
    String → Source → PResult (Except AError (FormatValue D)) :=
  importDefaultWith f.import_simple

/-- A concrete format that overrides only `name` and `import_simple`,
keeping the trait's default `import` body (the common case the trait is
designed for). -/
def Format.mkSimple (D : Type) (n : String)
    (imp : List Nat → PResult (Except AError D)) : Format D :=
  { name := n, import_simple := imp, doImport := importDefaultWith imp }

/-- A concrete format that overrides neither `import_simple` nor
`import`: both entry points keep their default bodies. -/
def Format.mkNameOnly (D : Type) (n : String) : Format D :=
  Format.mkSimple D n (Format.import_simple_default D)

/-- Cloning of a `Format` value (the `objekt::Clone` supertrait at
asset.rs line 51 and `clone_trait_object!` at line 81): a deep,
field-by-field copy of the format's configuration, owning no state of
the original. -/
def Format.clone {D : Type} (f : Format D) : Format D :=
  { name := f.name, import_simple := f.import_simple, doImport := f.doImport }

/-- An owned boxed trait object `Box<dyn Format<D>>`: type erasure over
a concrete format; `deref` recovers the underlying method table. -/
structure BoxDynFormat (D : Type) : Type where
  deref : Format D

/-- The forwarding impl `Format<D> for Box<dyn Format<D>>` (asset.rs
lines 98-109): each of `name`, `import_simple` and `import` calls the
same method on `self.deref()`. -/
def BoxDynFormat.asFormat {D : Type} (bf : BoxDynFormat D) : Format D :=
  { name := bf.deref.name,
    import_simple := fun bytes => bf.deref.import_simple bytes,
    doImport := fun name source => bf.deref.doImport name source }

/-- The `SerializableFormat` marker trait (asset.rs lines 89-93): a
`Format` additionally carrying the `erased_serde::Serialize` capability,
modelled as the format configuration's serialized form. -/
structure SerializableFormat (D : Type) extends Format D : Type where
  serialize : List Nat

/-- An owned boxed trait object `Box<dyn SerializableFormat<D>>`. -/
structure BoxDynSerializableFormat (D : Type) : Type where
  deref : SerializableFormat D

/-- The forwarding impl `Format<D> for Box<dyn SerializableFormat<D>>`
(asset.rs lines 111-122): each method calls the same method on
`self.deref()`. -/
def BoxDynSerializableFormat.asFormat {D : Type}
    (bf : BoxDynSerializableFormat D) : Format D :=
  { name := bf.deref.name,
    import_simple := fun bytes => bf.deref.import_simple bytes,
    doImport := fun name source => bf.deref.doImport name source }

/-- The marker impl `SerializableFormat<D> for Box<dyn
SerializableFormat<D>>` (asset.rs line 124), whose `Format` half is the
forwarding impl of lines 111-122 and whose `Serialize` half is
erased-serde's forwarding impl for boxes: the box itself satisfies the
full `SerializableFormat` contract. -/
def BoxDynSerializableFormat.asSerializableFormat {D : Type}
    (bf : BoxDynSerializableFormat D) : SerializableFormat D :=
  { toFormat := bf.asFormat, serialize := bf.deref.serialize }

/-- Modelled from the spec: `ProcessingState` (defined in
`crate::processor`, outside the provided sources), the two-variant
outcome of `process` (spec section 3): `Loaded(asset)` or
`Loading(data)`. -/
inductive ProcessingState (D A : Type) : Type where
  | Loaded (a : A)
  | Loading (d : D)

/-- The blanket impl `ProcessableAsset for T` where `T : Asset<Data = T>`
(asset.rs lines 38-42), at the passthrough instantiation `Data = Self`:
`process` returns `Ok(ProcessingState::Loaded(data))`. -/
def trivialProcess (A : Type) (data : A) : Except AError (ProcessingState A A) :=
  Except.ok (ProcessingState.Loaded data)

/-- The result of the default `import` as a function of the value the
byte-source resolved for the requested name (used to state that the
default `import` consults the source exactly at the given name and
forwards the loaded bytes untouched). Branches as in asset.rs
lines 74-77. -/
def importAfterLoad {D : Type} (f : Format D) (loaded : Except AError (List Nat)) :
    PResult (Except AError (FormatValue D)) :=
  match loaded with
  | Except.error e => PResult.ret (Except.error (AError.withCtx AErrorKind.Source e))
  | Except.ok b =>
    match f.import_simple b with
    | PResult.panicked m => PResult.panicked m
    | PResult.ret (Except.error e) => PResult.ret (Except.error e)
    | PResult.ret (Except.ok d) => PResult.ret (Except.ok (FormatValue.fromData d))

/-- A concrete format over `Nat` whose `import_simple` decodes bytes as
their count, used to exercise the default `import` on success paths. -/
def lenFormat : Format Nat :=
  Format.mkSimple Nat "LEN" (fun b => PResult.ret (Except.ok b.length))

/-- A concrete format over `Nat` whose `import_simple` always fails with
a decode error. -/
def failFormat : Format Nat :=
  Format.mkSimple Nat "FAIL" (fun _ => PResult.ret (Except.error (AError.msg "bad bytes")))

/-- A concrete format over `Nat` that overrides neither `import_simple`
nor `import`. -/
def bareFormat : Format Nat :=
  Format.mkNameOnly Nat "BARE"

/-- A byte-source resolving every name to the bytes `[7, 8, 9]`. -/
def threeByteSource : Source :=
  { load := fun _ => Except.ok [7, 8, 9] }

/-- A byte-source failing every load with an error naming the asset. -/
def failingSource : Source :=
  { load := fun n => Except.error (AError.msg n) }

/-- A context wrapping is never equal to the error it preserves: the
chain `withCtx k e` is strictly larger than `e`. -/
theorem AError.withCtx_ne (e : AError) : ∀ k : AErrorKind, AError.withCtx k e ≠ e := by
  induction e with
  | msg s => intro k h; exact AError.noConfusion h
  | withCtx k' e' ih =>
    intro k h
    injection h with hk he
    exact ih k' he

/-- C1: if the byte-source resolves the requested name to bytes `b` and
the format's `import_simple` returns `Ok d` on `b`, the default `import`
returns `Ok` of a `FormatValue` whose `data` field is exactly `d`. -/
theorem default_import_ok_of_import_simple_ok {D : Type} (f : Format D)
    (name : String) (src : Source) (b : List Nat) (d : D)
    (hload : src.load name = Except.ok b)
    (hsimple : f.import_simple b = PResult.ret (Except.ok d)) :
    f.defaultImport name src = PResult.ret (Except.ok (FormatValue.fromData d)) ∧
    (FormatValue.fromData d).data = d := by
  constructor
  · simp only [Format.defaultImport, importDefaultWith, hload, hsimple]
  · rfl

/-- Witness for C1 at a concrete format and byte-source. -/
theorem default_import_ok_of_import_simple_ok_witness :
    lenFormat.defaultImport "player.obj" threeByteSource =
      PResult.ret (Except.ok (FormatValue.fromData 3)) ∧
    (FormatValue.fromData (3 : Nat)).data = 3 :=
  default_import_ok_of_import_simple_ok lenFormat "player.obj" threeByteSource
    [7, 8, 9] 3 rfl rfl

/-- C2: if the byte-source fails to resolve the name, the default
`import` returns the underlying error wrapped in the Source context, and
the result does not depend on the format at all — in particular
`import_simple` is never invoked: even for a format whose
`import_simple` always panics, the result is this returned error, not a
panic. -/
theorem default_import_source_error {D : Type} (f g : Format D)
    (name : String) (src : Source) (e : AError)
    (hload : src.load name = Except.error e) :
    f.defaultImport name src =
      PResult.ret (Except.error (AError.withCtx AErrorKind.Source e)) ∧
    f.defaultImport name src = g.defaultImport name src := by
  constructor
  · unfold Format.defaultImport importDefaultWith
    rw [hload]
  · unfold Format.defaultImport importDefaultWith
    rw [hload]

/-- Witness for C2 at a concrete failing byte-source, comparing a format
with a working `import_simple` against one whose `import_simple`
panics. -/
theorem default_import_source_error_witness :
    lenFormat.defaultImport "missing.png" failingSource =
      PResult.ret (Except.error
        (AError.withCtx AErrorKind.Source (AError.msg "missing.png"))) ∧
    lenFormat.defaultImport "missing.png" failingSource =
      bareFormat.defaultImport "missing.png" failingSource :=
  default_import_source_error lenFormat bareFormat "missing.png" failingSource
    (AError.msg "missing.png") rfl

/-- C3: the blanket `process` for the passthrough case `Data = Self`
returns `Ok (Loaded data)` with the input unchanged, and never returns
`Loading` or an error. -/
theorem trivial_process_loaded (A : Type) (d : A) :
    trivialProcess A d = Except.ok (ProcessingState.Loaded d) ∧
    (∀ d' : A, trivialProcess A d ≠ Except.ok (ProcessingState.Loading d')) ∧
    (∀ e : AError, trivialProcess A d ≠ Except.error e) := by
  refine ⟨rfl, ?_, ?_⟩
  · intro d' h
    rw [trivialProcess] at h
    injection h with h1
    exact ProcessingState.noConfusion h1
  · intro e h
    exact Except.noConfusion h

/-- Witness for C3 at a concrete asset value. -/
theorem trivial_process_loaded_witness :
    trivialProcess Nat 5 = Except.ok (ProcessingState.Loaded 5) ∧
    trivialProcess Nat 5 ≠ Except.ok (ProcessingState.Loading 9) ∧
    trivialProcess Nat 5 ≠ Except.error (AError.msg "boom") :=
  ⟨(trivial_process_loaded Nat 5).1,
   (trivial_process_loaded Nat 5).2.1 9,
   (trivial_process_loaded Nat 5).2.2 (AError.msg "boom")⟩

/-- C4: the boxed trait object `Box<dyn Format<D>>` forwards `name`,
`import_simple` and `import` unchanged to the wrapped concrete format,
adding no behavior of its own. -/
theorem box_format_delegates {D : Type} (f : Format D) :
    (BoxDynFormat.mk f).asFormat.name = f.name ∧
    (∀ b : List Nat, (BoxDynFormat.mk f).asFormat.import_simple b = f.import_simple b) ∧
    (∀ (n : String) (s : Source),
      (BoxDynFormat.mk f).asFormat.doImport n s = f.doImport n s) :=
  ⟨rfl, fun _ => rfl, fun _ _ => rfl⟩

/-- C5: for a format that leaves `import_simple` at its trait default,
calling `import_simple` — directly, or through the default `import` once
the byte-source has resolved the name — halts loudly with the panic
message naming the contract, and returns no value. -/
theorem import_simple_default_panics {D : Type} (f : Format D)
    (name : String) (src : Source) (b : List Nat)
    (hdef : f.import_simple = Format.import_simple_default D)
    (hload : src.load name = Except.ok b) :
    f.import_simple b = PResult.panicked importSimpleDefaultMsg ∧
    f.defaultImport name src = PResult.panicked importSimpleDefaultMsg ∧
    (∀ r : Except AError D, f.import_simple b ≠ PResult.ret r) := by
  refine ⟨?_, ?_, ?_⟩
  · rw [hdef]; rfl
  · simp only [Format.defaultImport, importDefaultWith, hload, hdef,
      Format.import_simple_default]
  · intro r h
    rw [hdef] at h
    exact PResult.noConfusion h

/-- Witness for C5 at a concrete format overriding neither entry point,
with a byte-source that resolves the name. -/
theorem import_simple_default_panics_witness :
    bareFormat.import_simple [7, 8, 9] = PResult.panicked importSimpleDefaultMsg ∧
    bareFormat.defaultImport "a.png" threeByteSource =
      PResult.panicked importSimpleDefaultMsg ∧
    bareFormat.import_simple [7, 8, 9] ≠ PResult.ret (Except.ok 0) :=
  ⟨(import_simple_default_panics bareFormat "a.png" threeByteSource [7, 8, 9] rfl rfl).1,
   (import_simple_default_panics bareFormat "a.png" threeByteSource [7, 8, 9] rfl rfl).2.1,
   (import_simple_default_panics bareFormat "a.png" threeByteSource [7, 8, 9] rfl rfl).2.2
     (Except.ok 0)⟩

/-- C6: cloning a format and calling `import_simple` on the original and
on the clone with the same bytes yields the same result; the clone is a
copy of the same immutable configuration (`name` agrees too, and the
default `import` built on the clone agrees as well). -/
theorem clone_import_simple_agrees {D : Type} (f : Format D) :
    (∀ b : List Nat, (Format.clone f).import_simple b = f.import_simple b) ∧
    (Format.clone f).name = f.name ∧
    (∀ (n : String) (s : Source),
      (Format.clone f).defaultImport n s = f.defaultImport n s) :=
  ⟨fun _ => rfl, rfl, fun _ _ => rfl⟩

/-- C7: if the byte-source resolves the name but `import_simple` fails
with a decode error `e`, the default `import` returns exactly `e`,
unwrapped — in particular not wrapped in the Source context. -/
theorem default_import_propagates_decode_error {D : Type} (f : Format D)
    (name : String) (src : Source) (b : List Nat) (e : AError)
    (hload : src.load name = Except.ok b)
    (hsimple : f.import_simple b = PResult.ret (Except.error e)) :
    f.defaultImport name src = PResult.ret (Except.error e) ∧
    f.defaultImport name src ≠
      PResult.ret (Except.error (AError.withCtx AErrorKind.Source e)) := by
  have hrun : f.defaultImport name src = PResult.ret (Except.error e) := by
    simp only [Format.defaultImport, importDefaultWith, hload, hsimple]
  refine ⟨hrun, ?_⟩
  rw [hrun]
  intro h
  injection h with h1
  injection h1 with h2
  exact AError.withCtx_ne e AErrorKind.Source h2.symm

/-- Witness for C7 at a concrete format whose `import_simple` fails. -/
theorem default_import_propagates_decode_error_witness :
    failFormat.defaultImport "a.png" threeByteSource =
      PResult.ret (Except.error (AError.msg "bad bytes")) ∧
    failFormat.defaultImport "a.png" threeByteSource ≠
      PResult.ret (Except.error
        (AError.withCtx AErrorKind.Source (AError.msg "bad bytes"))) :=
  default_import_propagates_decode_error failFormat "a.png" threeByteSource
    [7, 8, 9] (AError.msg "bad bytes") rfl rfl

/-- C8: the boxed trait object `Box<dyn SerializableFormat<D>>`
satisfies the `Format` contract and the `SerializableFormat` contract,
and each of `name`, `import_simple` and `import` forwards unchanged to
the wrapped concrete format; its serialization is the wrapped format's
serialization. -/
theorem box_serializable_format_delegates {D : Type} (f : SerializableFormat D) :
    (BoxDynSerializableFormat.mk f).asFormat.name = f.name ∧
    (∀ b : List Nat,
      (BoxDynSerializableFormat.mk f).asFormat.import_simple b = f.import_simple b) ∧
    (∀ (n : String) (s : Source),
      (BoxDynSerializableFormat.mk f).asFormat.doImport n s = f.doImport n s) ∧
    (BoxDynSerializableFormat.mk f).asSerializableFormat.toFormat =
      (BoxDynSerializableFormat.mk f).asFormat ∧
    (BoxDynSerializableFormat.mk f).asSerializableFormat.serialize = f.serialize :=
  ⟨rfl, fun _ => rfl, fun _ _ => rfl, rfl, rfl⟩

/-- C9: `FormatValue` is a trivial envelope: constructing it from data
`d` yields a value whose single `data` field is exactly `d`, and every
`FormatValue` is exactly the envelope of its `data` field — it carries
no other state. -/
theorem format_value_trivial_envelope {D : Type} (d : D) :
    (FormatValue.fromData d).data = d ∧
    (∀ v : FormatValue D, FormatValue.fromData v.data = v) :=
  ⟨rfl, fun _ => rfl⟩

/-- C10: the default `import` consults the byte-source exactly once, at
exactly the given name — its result is a function of `src.load name` —
and `importAfterLoad` hands the bytes of a successful load to
`import_simple` unchanged. -/
theorem default_import_verbatim {D : Type} (f : Format D)
    (name : String) (src : Source) :
    f.defaultImport name src = importAfterLoad f (src.load name) := rfl

end Amethyst
